import Mathlib

/-!
Verification of the Energyzero_ETL pipeline scripts.

The repository has three scripts:
  * `scripts/extract_energyzero.py` — builds query parameters and fetches raw JSON;
  * `scripts/transform_pandas.py`   — extracts records from the payload, normalizes
    the column names, derives `Date`/`Time`/`Price_with_VAT`, reorders columns;
  * `scripts/validate_parquet.py`   — validates the transformed table.

We shallowly embed the data-manipulating parts.  A pandas `DataFrame` is a list
of labelled columns (label × list of cells); duplicate labels are representable,
as they are in pandas.  A cell is null (NaN/None), a rational number, or a
string; rationals stand in for Python floats (every literal appearing in the
claims is exactly representable, and the one concrete product the spec demands,
`100 * (1 + 0.21) = 121.0`, is exact in IEEE double arithmetic as well).

Library functions of pandas that the scripts call are modelled as follows:
  * `df.rename(columns=m)` maps every column label through the finite map `m`;
  * `df[c] = s` replaces the cells of an existing column in place, otherwise
    appends a new column at the end;
  * `pd.to_numeric(s, errors="coerce")` is `toNumeric` below, with a small
    decimal-literal parser for string cells;
  * `pd.to_datetime(s, utc=True, errors="coerce")` is abstracted as an arbitrary
    parameter `parseTs : Cell → Option (Cell × Cell)` returning the derived
    `Date` and `Time` cells on success — no claim depends on the concrete
    datetime grammar, only on success/failure and on the derived columns being
    installed.
-/

namespace EnergyzeroETL

/-- A cell of a dataframe: missing (NaN/None), numeric, or string. -/
inductive Cell where
  | null : Cell
  | num : ℚ → Cell
  | str : String → Cell
deriving DecidableEq, Repr

/-- A labelled column. -/
abbrev Col := String × List Cell

/-- A dataframe: columns in order, duplicate labels allowed (as in pandas). -/
abbrev DataFrame := List Col

/-- `list(df.columns)`. -/
def colNames (df : DataFrame) : List String := df.map Prod.fst

/-- `df[name]` for a present label (first matching column); `[]` if absent. -/
def getColCells (df : DataFrame) (name : String) : List Cell :=
  match df with
  | [] => []
  | c :: t => if c.1 = name then c.2 else getColCells t name

/-- `df[name] = cells`: replace in place if the label exists, else append. -/
def setCol (df : DataFrame) (name : String) (cells : List Cell) : DataFrame :=
  if name ∈ colNames df then
    df.map (fun c => if c.1 = name then (name, cells) else c)
  else
    df ++ [(name, cells)]

/-- `df[cols]`: select columns by label, in the given order. -/
def reindex (df : DataFrame) (cols : List String) : DataFrame :=
  cols.map (fun n => (n, getColCells df n))

/-- True on a missing cell. -/
def Cell.isNull : Cell → Bool
  | .null => true
  | _ => false

/-- Digits of a decimal literal folded to a natural number. -/
def digitsToNat (cs : List Char) : Nat :=
  cs.foldl (fun a c => a * 10 + (c.toNat - 48)) 0

/-- Parse a plain decimal literal (optional sign, optional fractional part). -/
def strToRat (s : String) : Option ℚ :=
  let cs := s.toList
  let signed := match cs with
    | c :: rest => if c = '-' then (true, rest) else (false, cs)
    | [] => (false, cs)
  let body := signed.2
  let intPart := body.takeWhile (fun c => c ≠ '.')
  let rest := body.dropWhile (fun c => c ≠ '.')
  let val : Option ℚ :=
    match rest with
    | [] =>
      if intPart ≠ [] ∧ intPart.all Char.isDigit then
        some ((digitsToNat intPart : ℚ))
      else none
    | _ :: frac =>
      if intPart ≠ [] ∧ frac ≠ [] ∧ intPart.all Char.isDigit ∧ frac.all Char.isDigit then
        some ((digitsToNat intPart : ℚ) + (digitsToNat frac : ℚ) / (10 : ℚ) ^ frac.length)
      else none
  val.map (fun q => if signed.1 then -q else q)

/-- `pd.to_numeric(·, errors="coerce")` on one cell. -/
def toNumeric (c : Cell) : Cell :=
  match c with
  | .null => .null
  | .num q => .num q
  | .str s =>
    match strToRat s with
    | some q => .num q
    | none => .null

/-- Human-readable form of a cell, for error messages. -/
def cellText : Cell → String
  | .null => "None"
  | .num q => toString q
  | .str s => s

/-- Render a list of cells for an error message. -/
def cellsText (cs : List Cell) : String :=
  String.intercalate ", " (cs.map cellText)

/-! ## `transform_pandas.py` — record extraction and column standardization -/

/-- A JSON value, as produced by `json.loads`. -/
inductive Json where
  | jnull : Json
  | jbool : Bool → Json
  | jnum : ℚ → Json
  | jstr : String → Json
  | jarr : List Json → Json
  | jobj : List (String × Json) → Json
deriving Repr

/-- Key order probed by `extract_records` on a dict payload. -/
def priorityKeys : List String := ["Prices", "prices", "data", "results", "items"]

/-- `payload.get(key)` on a dict payload. -/
def dictGet (kvs : List (String × Json)) (k : String) : Option Json :=
  match kvs.find? (fun e => e.1 == k) with
  | some e => some e.2
  | none => none

/-- The loop of `extract_records`: first probed key whose value is a list. -/
def firstListUnder (kvs : List (String × Json)) : List String → Option (List Json)
  | [] => none
  | k :: rest =>
    match dictGet kvs k with
    | some (.jarr xs) => some xs
    | _ => firstListUnder kvs rest

/-- The error message raised when no list of records can be found. -/
def extractErrMsg : String :=
  "Could not find list of records in JSON payload. " ++
  "Expected list or dict containing list under Prices/prices/data/results/items."

/-- `extract_records` from `scripts/transform_pandas.py` (lines 27-38). -/
def extract_records (payload : Json) : Except String (List Json) :=
  match payload with
  | .jarr xs => .ok xs
  | .jobj kvs =>
    match firstListUnder kvs priorityKeys with
    | some xs => .ok xs
    | none => .error extractErrMsg
  | _ => .error extractErrMsg

/-- The `rename_map` dict built by `standardize_columns` (lines 42-48). -/
def renameMap (cols : List String) : List (String × String) :=
  (if "readingDate" ∈ cols ∧ "ReadingDate" ∉ cols then [("readingDate", "ReadingDate")] else [])
  ++ (if "price" ∈ cols ∧ "Price" ∉ cols then [("price", "Price")] else [])
  ++ (if "value" ∈ cols ∧ "Price" ∉ cols then [("value", "Price")] else [])

/-- Apply a rename map to one label (`df.rename` leaves unmapped labels alone). -/
def applyRename (m : List (String × String)) (n : String) : String :=
  match m with
  | [] => n
  | (k, v) :: rest => if n = k then v else applyRename rest n

/-- `standardize_columns` from `scripts/transform_pandas.py` (lines 41-49). -/
def standardize_columns (df : DataFrame) : DataFrame :=
  let m := renameMap (colNames df)
  if m = [] then df
  else df.map (fun c => (applyRename m c.1, c.2))

/-- Pointwise description of the label renaming that `standardize_columns`
performs on the labels of its frame; proved to agree with
`applyRename (renameMap cols)` on every label of the frame. -/
def stdName (cols : List String) (n : String) : String :=
  if n = "readingDate" ∧ "ReadingDate" ∉ cols then "ReadingDate"
  else if n = "price" ∧ "Price" ∉ cols then "Price"
  else if n = "value" ∧ "Price" ∉ cols then "Price"
  else n

/-! ## `transform_pandas.py` — the transform pipeline of `main` (lines 68-92) -/

/-- The canonical leading columns (`preferred`, line 90). -/
def preferredCols : List String :=
  ["ReadingDate", "Date", "Time", "Price", "Price_with_VAT"]

/-- Error message of the `ReadingDate` parse check (line 79). -/
def parseErrMsg (bad : List Cell) : String :=
  "Some ReadingDate values could not be parsed. Examples: [" ++ cellsText bad ++ "]"

/-- Error message of a missing required column (lines 72, 74). -/
def missingColMsg (col : String) (found : List String) : String :=
  "Missing required column " ++ col ++ ". Found: [" ++ String.intercalate ", " found ++ "]"

/-- Scale a numeric cell; NaN propagates (pandas Series arithmetic). -/
def cellScale (q : ℚ) : Cell → Cell
  | .num x => .num (x * q)
  | _ => .null

/-- Lines 76-82 of the transform on the success path: derive the `Date` and
`Time` columns from the parsed `ReadingDate` column
(`df["Date"] = dt.dt.date`, `df["Time"] = dt.dt.strftime("%H:%M:%S")`). -/
def deriveDateTime (parseTs : Cell → Option (Cell × Cell)) (df : DataFrame) :
    DataFrame :=
  let rd := getColCells df "ReadingDate"
  let pairs := rd.map (fun c => (parseTs c).getD (Cell.null, Cell.null))
  setCol (setCol df "Date" (pairs.map Prod.fst)) "Time" (pairs.map Prod.snd)

/-- Lines 84-92 on the success path, applied to the standardized frame:
coerce `Price` to numeric, add `Price_with_VAT = Price * (1 + vat_rate)`,
and reorder with the five canonical columns first. -/
def transformSuccess (parseTs : Cell → Option (Cell × Cell)) (vat_rate : ℚ)
    (df : DataFrame) : DataFrame :=
  let df2 := deriveDateTime parseTs df
  let priceNum := (getColCells df2 "Price").map toNumeric
  let df3 := setCol df2 "Price" priceNum
  let df4 := setCol df3 "Price_with_VAT" (priceNum.map (cellScale (1 + vat_rate)))
  reindex df4 (preferredCols ++ (colNames df4).filter (fun c => c ∉ preferredCols))

/-- The dataframe part of `main` in `scripts/transform_pandas.py` (lines 68-92):
standardize column names, require `ReadingDate` and `Price`, parse
`ReadingDate` (failing with up to 5 examples), derive `Date`/`Time`, coerce
`Price` to numeric, add `Price_with_VAT = Price * (1 + vat_rate)`, and put
the five canonical columns first.  `parseTs` abstracts
`pd.to_datetime(·, utc=True, errors="coerce")` together with the
`.dt.date` / `.dt.strftime` derivations: it returns the `Date` and `Time`
cells of a successfully parsed timestamp, and `none` on a parse failure. -/
def transform (parseTs : Cell → Option (Cell × Cell)) (vat_rate : ℚ)
    (df0 : DataFrame) : Except String DataFrame :=
  let df := standardize_columns df0
  if "ReadingDate" ∉ colNames df then
    .error (missingColMsg "ReadingDate" (colNames df))
  else if "Price" ∉ colNames df then
    .error (missingColMsg "Price" (colNames df))
  else
    let rd := getColCells df "ReadingDate"
    if (rd.map parseTs).any Option.isNone then
      .error (parseErrMsg ((rd.filter (fun c => (parseTs c).isNone)).take 5))
    else
      let priceNum := (getColCells (deriveDateTime parseTs df) "Price").map toNumeric
      if priceNum.any Cell.isNull then
        .error "Some Price values are not numeric after conversion."
      else
        .ok (transformSuccess parseTs vat_rate df)

/-! ## `extract_energyzero.py` — query parameter construction -/

/-- A calendar date, as held by a Python `datetime.date`. -/
structure PyDate where
  year : Nat
  month : Nat
  dayOfMonth : Nat
deriving DecidableEq, Repr

/-- Left-pad a numeral with zeros to the given width. -/
def padZeros (width : Nat) (n : Nat) : String :=
  let s := toString n
  String.mk (List.replicate (width - s.length) '0') ++ s

/-- `f"{d:%Y-%m-%d}"`: zero-padded ISO calendar date. -/
def fmtDate (d : PyDate) : String :=
  padZeros 4 d.year ++ "-" ++ padZeros 2 d.month ++ "-" ++ padZeros 2 d.dayOfMonth

/-- `build_params` from `scripts/extract_energyzero.py` (lines 21-32). -/
def build_params (start_date end_date : PyDate) (interval : Int)
    (usage_type : Int) (incl_btw : Bool) : List (String × String) :=
  let from_dt := fmtDate start_date ++ "T00:00:00.000Z"
  let till_dt := fmtDate end_date ++ "T23:59:59.999Z"
  [("fromDate", from_dt),
   ("tillDate", till_dt),
   ("interval", toString interval),
   ("usageType", toString usage_type),
   ("inclBtw", if incl_btw then "true" else "false")]

/-! ## `validate_parquet.py` — the validation contract (lines 22-49) -/

/-- `required_cols` of the validator (line 25). -/
def requiredCols : List String :=
  ["ReadingDate", "Date", "Time", "Price", "Price_with_VAT"]

/-- Number of rows of a dataframe (`len(df)`): length of the first column. -/
def nRows (df : DataFrame) : Nat :=
  match df with
  | [] => 0
  | c :: _ => c.2.length

/-- Error message for missing required columns (line 28). -/
def missingColsMsg (missing found : List String) : String :=
  "Validation FAIL: Missing required columns: [" ++ String.intercalate ", " missing ++
  "]. Found: [" ++ String.intercalate ", " found ++ "]"

/-- Error message for null values in a price column (line 38). -/
def nullsMsg (col : String) (n : Nat) : String :=
  "Validation FAIL: Column " ++ col ++ " has " ++ toString n ++ " null values."

/-- Error message for non-numeric values in a price column (line 44). -/
def nonNumericMsg (col : String) (examples : List Cell) : String :=
  "Validation FAIL: Column " ++ col ++ " has non-numeric values. Examples: [" ++
  cellsText examples ++ "]"

/-- The per-column data-quality loop of the validator (lines 35-44). -/
def checkPriceCol (df : DataFrame) (col : String) : Except String Unit :=
  let cells := getColCells df col
  let badNulls := cells.countP (fun c => c.isNull)
  if badNulls ≠ 0 then
    .error (nullsMsg col badNulls)
  else
    let conv := cells.map toNumeric
    if conv.any Cell.isNull then
      .error (nonNumericMsg col ((cells.filter (fun c => (toNumeric c).isNull)).take 5))
    else
      .ok ()

/-- The dataframe part of `main` in `scripts/validate_parquet.py` (lines 22-49):
require the five canonical columns (naming the missing ones), require at least
one row, and require `Price` and `Price_with_VAT` to be null-free and fully
numeric. -/
def validate (df : DataFrame) : Except String Unit :=
  let missing := requiredCols.filter (fun c => c ∉ colNames df)
  if missing ≠ [] then
    .error (missingColsMsg missing (colNames df))
  else if nRows df = 0 then
    .error "Validation FAIL: Parquet contains 0 rows."
  else
    match checkPriceCol df "Price" with
    | .error e => .error e
    | .ok _ => checkPriceCol df "Price_with_VAT"

/-! ## Helper lemmas: record extraction -/

/-- Does this dict key hold a list? (the probe condition of `extract_records`). -/
def holdsSeq (kvs : List (String × Json)) (k : String) : Bool :=
  match dictGet kvs k with
  | some (.jarr _) => true
  | _ => false

theorem firstListUnder_cons_hit (kvs : List (String × Json)) (k : String)
    (rest : List String) (xs : List Json) (h : dictGet kvs k = some (.jarr xs)) :
    firstListUnder kvs (k :: rest) = some xs := by
  simp [firstListUnder, h]

theorem firstListUnder_cons_miss (kvs : List (String × Json)) (k : String)
    (rest : List String) (h : holdsSeq kvs k = false) :
    firstListUnder kvs (k :: rest) = firstListUnder kvs rest := by
  unfold holdsSeq at h
  conv_lhs => rw [firstListUnder]
  cases hg : dictGet kvs k with
  | none => rfl
  | some v =>
    rw [hg] at h
    cases v <;> simp_all

/-! ## Theorems for the claims -/

/-- C4: `extract_records` is the identity on a payload that is a bare
sequence of records: the list is returned unchanged. -/
theorem extract_records_list_identity (xs : List Json) :
    extract_records (Json.jarr xs) = Except.ok xs := rfl

/-- C8: `build_params` produces exactly the five query parameters
`fromDate`, `tillDate`, `interval`, `usageType`, `inclBtw`, with `fromDate`
in `YYYY-MM-DDT00:00:00.000Z` form for the start date, `tillDate` in
`YYYY-MM-DDT23:59:59.999Z` form for the end date, and `inclBtw` the string
`"true"` exactly when the flag is set. -/
theorem build_params_spec (s e : PyDate) (i u : Int) (b : Bool) :
    (build_params s e i u b).map Prod.fst
      = ["fromDate", "tillDate", "interval", "usageType", "inclBtw"] ∧
    (build_params s e i u b).lookup "fromDate"
      = some (fmtDate s ++ "T00:00:00.000Z") ∧
    (build_params s e i u b).lookup "tillDate"
      = some (fmtDate e ++ "T23:59:59.999Z") ∧
    (build_params s e i u b).lookup "interval" = some (toString i) ∧
    (build_params s e i u b).lookup "usageType" = some (toString u) ∧
    (build_params s e i u b).lookup "inclBtw"
      = some (if b then "true" else "false") := by
  refine ⟨rfl, rfl, ?_, ?_, ?_, ?_⟩ <;> rfl

/-- C3: on a dict payload, `extract_records` probes `Prices`, `prices`,
`data`, `results`, `items` in that order and returns the value of the first
key holding a list; when no probed key holds a list it fails with the
descriptive error message (never an empty result). -/
theorem extract_records_priority (kvs : List (String × Json)) :
    (∀ xs, dictGet kvs "Prices" = some (.jarr xs) →
      extract_records (.jobj kvs) = .ok xs) ∧
    (holdsSeq kvs "Prices" = false →
      ∀ xs, dictGet kvs "prices" = some (.jarr xs) →
        extract_records (.jobj kvs) = .ok xs) ∧
    (holdsSeq kvs "Prices" = false → holdsSeq kvs "prices" = false →
      ∀ xs, dictGet kvs "data" = some (.jarr xs) →
        extract_records (.jobj kvs) = .ok xs) ∧
    (holdsSeq kvs "Prices" = false → holdsSeq kvs "prices" = false →
      holdsSeq kvs "data" = false →
      ∀ xs, dictGet kvs "results" = some (.jarr xs) →
        extract_records (.jobj kvs) = .ok xs) ∧
    (holdsSeq kvs "Prices" = false → holdsSeq kvs "prices" = false →
      holdsSeq kvs "data" = false → holdsSeq kvs "results" = false →
      ∀ xs, dictGet kvs "items" = some (.jarr xs) →
        extract_records (.jobj kvs) = .ok xs) ∧
    ((∀ k ∈ priorityKeys, holdsSeq kvs k = false) →
      extract_records (.jobj kvs) = .error extractErrMsg) := by
  refine ⟨?_, ?_, ?_, ?_, ?_, ?_⟩
  · intro xs h
    simp [extract_records, priorityKeys, firstListUnder_cons_hit kvs _ _ _ h]
  · intro h1 xs h
    simp [extract_records, priorityKeys, firstListUnder_cons_miss kvs _ _ h1,
      firstListUnder_cons_hit kvs _ _ _ h]
  · intro h1 h2 xs h
    simp [extract_records, priorityKeys, firstListUnder_cons_miss kvs _ _ h1,
      firstListUnder_cons_miss kvs _ _ h2, firstListUnder_cons_hit kvs _ _ _ h]
  · intro h1 h2 h3 xs h
    simp [extract_records, priorityKeys, firstListUnder_cons_miss kvs _ _ h1,
      firstListUnder_cons_miss kvs _ _ h2, firstListUnder_cons_miss kvs _ _ h3,
      firstListUnder_cons_hit kvs _ _ _ h]
  · intro h1 h2 h3 h4 xs h
    simp [extract_records, priorityKeys, firstListUnder_cons_miss kvs _ _ h1,
      firstListUnder_cons_miss kvs _ _ h2, firstListUnder_cons_miss kvs _ _ h3,
      firstListUnder_cons_miss kvs _ _ h4, firstListUnder_cons_hit kvs _ _ _ h]
  · intro h
    have h1 := h "Prices" (by simp [priorityKeys])
    have h2 := h "prices" (by simp [priorityKeys])
    have h3 := h "data" (by simp [priorityKeys])
    have h4 := h "results" (by simp [priorityKeys])
    have h5 := h "items" (by simp [priorityKeys])
    have e : firstListUnder kvs priorityKeys = none := by
      show firstListUnder kvs ("Prices" :: "prices" :: "data" :: "results" :: "items" :: []) = none
      rw [firstListUnder_cons_miss kvs _ _ h1, firstListUnder_cons_miss kvs _ _ h2,
        firstListUnder_cons_miss kvs _ _ h3, firstListUnder_cons_miss kvs _ _ h4,
        firstListUnder_cons_miss kvs _ _ h5]
      rfl
    simp [extract_records, e]

/-- Witness for C3 at a concrete payload: `prices` beats `data`
when `Prices` holds no list. -/
theorem extract_records_priority_witness :
    extract_records (.jobj [("data", .jarr [.jnum 1]), ("prices", .jarr [.jnum 2]),
        ("Prices", .jnum 3)])
      = .ok [.jnum 2] := by
  have h := (extract_records_priority
    [("data", .jarr [.jnum 1]), ("prices", .jarr [.jnum 2]), ("Prices", .jnum 3)]).2.1
  exact h (by rfl) [.jnum 2] (by rfl)

/-! ## Helper lemmas: column standardization -/

theorem applyRename_renameMap (cols : List String) (n : String) :
    applyRename (renameMap cols) n =
      if n = "readingDate" ∧ "readingDate" ∈ cols ∧ "ReadingDate" ∉ cols then
        "ReadingDate"
      else if n = "price" ∧ "price" ∈ cols ∧ "Price" ∉ cols then "Price"
      else if n = "value" ∧ "value" ∈ cols ∧ "Price" ∉ cols then "Price"
      else n := by
  unfold renameMap
  split_ifs with h1 h2 h3 <;> simp_all [applyRename]

theorem standardize_eq_map (df : DataFrame) :
    standardize_columns df
      = df.map (fun c => (applyRename (renameMap (colNames df)) c.1, c.2)) := by
  unfold standardize_columns
  by_cases hm : renameMap (colNames df) = []
  · simp [hm, applyRename]
  · simp [hm]

theorem stdName_eq_applyRename (cols : List String) (n : String) (hn : n ∈ cols) :
    applyRename (renameMap cols) n = stdName cols n := by
  rw [applyRename_renameMap]
  unfold stdName
  split_ifs <;> simp_all

theorem standardize_eq_stdName (df : DataFrame) :
    standardize_columns df
      = df.map (fun c => (stdName (colNames df) c.1, c.2)) := by
  rw [standardize_eq_map]
  apply List.map_congr_left
  intro c hc
  have h : c.1 ∈ colNames df := List.mem_map_of_mem Prod.fst hc
  rw [stdName_eq_applyRename _ _ h]

theorem colNames_standardize (df : DataFrame) :
    colNames (standardize_columns df)
      = (colNames df).map (stdName (colNames df)) := by
  rw [standardize_eq_stdName]
  simp [colNames, List.map_map, Function.comp]

theorem stdName_ReadingDate (cols : List String) :
    stdName cols "ReadingDate" = "ReadingDate" := by
  simp [stdName]

theorem stdName_Price (cols : List String) : stdName cols "Price" = "Price" := by
  simp [stdName]

theorem stdName_eq_readingDate (cols : List String) (n : String)
    (h : stdName cols n = "readingDate") :
    n = "readingDate" ∧ "ReadingDate" ∈ cols := by
  unfold stdName at h
  split_ifs at h with h1 h2 h3
  · exact absurd h (by decide)
  · exact absurd h (by decide)
  · exact absurd h (by decide)
  · subst h
    simp at h1
    exact ⟨rfl, h1⟩

theorem stdName_eq_price (cols : List String) (n : String)
    (h : stdName cols n = "price") :
    n = "price" ∧ "Price" ∈ cols := by
  unfold stdName at h
  split_ifs at h with h1 h2 h3
  · exact absurd h (by decide)
  · exact absurd h (by decide)
  · exact absurd h (by decide)
  · subst h
    simp at h2
    exact ⟨rfl, h2⟩

theorem stdName_eq_value (cols : List String) (n : String)
    (h : stdName cols n = "value") :
    n = "value" ∧ "Price" ∈ cols := by
  unfold stdName at h
  split_ifs at h with h1 h2 h3
  · exact absurd h (by decide)
  · exact absurd h (by decide)
  · exact absurd h (by decide)
  · subst h
    simp at h3
    exact ⟨rfl, h3⟩

theorem stdName_fixed (cols : List String) (n : String)
    (hn : n ∈ cols.map (stdName cols)) :
    stdName (cols.map (stdName cols)) n = n := by
  obtain ⟨m, hm, hfm⟩ := List.mem_map.mp hn
  unfold stdName
  split_ifs with h1 h2 h3
  · exfalso
    have h := stdName_eq_readingDate cols m (by rw [hfm, h1.1])
    refine h1.2 ?_
    have hmem := List.mem_map_of_mem (stdName cols) h.2
    rwa [stdName_ReadingDate] at hmem
  · exfalso
    have h := stdName_eq_price cols m (by rw [hfm, h2.1])
    refine h2.2 ?_
    have hmem := List.mem_map_of_mem (stdName cols) h.2
    rwa [stdName_Price] at hmem
  · exfalso
    have h := stdName_eq_value cols m (by rw [hfm, h3.1])
    refine h3.2 ?_
    have hmem := List.mem_map_of_mem (stdName cols) h.2
    rwa [stdName_Price] at hmem
  · rfl

theorem filter_name_map (f : String → String) (l : DataFrame) (y : String)
    (hf : ∀ n, f n = y ↔ n = y) :
    (l.map (fun c => (f c.1, c.2))).filter (fun c => c.1 == y)
      = l.filter (fun c => c.1 == y) := by
  induction l with
  | nil => rfl
  | cons c t ih =>
    obtain ⟨n, cs⟩ := c
    by_cases hc : n = y
    · simp [List.filter_cons, hc, (hf y).mpr rfl, ih]
    · have hfc : f n ≠ y := fun h => hc ((hf n).mp h)
      simp [List.filter_cons, hc, hfc, ih]

theorem count_add_le_count_map (f : String → String) (y a b : String)
    (hab : a ≠ b) (hfa : f a = y) (hfb : f b = y) (l : List String) :
    l.count a + l.count b ≤ (l.map f).count y := by
  induction l with
  | nil => simp
  | cons c t ih =>
    rw [List.map_cons, List.count_cons, List.count_cons, List.count_cons]
    simp only [beq_iff_eq]
    by_cases h1 : c = a
    · rw [if_pos h1, if_neg (fun h : c = b => hab (h1.symm.trans h)),
        if_pos (show f c = y by rw [h1, hfa])]
      omega
    · by_cases h2 : c = b
      · rw [if_neg h1, if_pos h2, if_pos (show f c = y by rw [h2, hfb])]
        omega
      · rw [if_neg h1, if_neg h2]
        by_cases h3 : f c = y
        · rw [if_pos h3]
          omega
        · rw [if_neg h3]
          omega

/-- C1: `standardize_columns` renames `readingDate`→`ReadingDate` and
`price`/`value`→`Price` exactly when the canonical target column is absent,
renames no other label, and never overwrites an existing canonical column:
for a frame containing both a `price` and a `Price` column, every `Price`
column keeps its cells (so `price: 1`, `Price: 2` keeps `Price == 2`). -/
theorem standardize_columns_no_overwrite (df : DataFrame) :
    (applyRename (renameMap (colNames df)) "readingDate"
      = if "readingDate" ∈ colNames df ∧ "ReadingDate" ∉ colNames df then
          "ReadingDate" else "readingDate") ∧
    (applyRename (renameMap (colNames df)) "price"
      = if "price" ∈ colNames df ∧ "Price" ∉ colNames df then "Price"
        else "price") ∧
    (applyRename (renameMap (colNames df)) "value"
      = if "value" ∈ colNames df ∧ "Price" ∉ colNames df then "Price"
        else "value") ∧
    (∀ n, n ≠ "readingDate" → n ≠ "price" → n ≠ "value" →
      applyRename (renameMap (colNames df)) n = n) ∧
    ("price" ∈ colNames df → "Price" ∈ colNames df →
      (standardize_columns df).filter (fun c => c.1 == "Price")
        = df.filter (fun c => c.1 == "Price")) := by
  refine ⟨?_, ?_, ?_, ?_, ?_⟩
  · rw [applyRename_renameMap]
    split_ifs <;> simp_all
  · rw [applyRename_renameMap]
    split_ifs <;> simp_all
  · rw [applyRename_renameMap]
    split_ifs <;> simp_all
  · intro n hn1 hn2 hn3
    rw [applyRename_renameMap]
    split_ifs with h1 h2 h3
    · exact absurd h1.1 hn1
    · exact absurd h2.1 hn2
    · exact absurd h3.1 hn3
    · rfl
  · intro hp hP
    rw [standardize_eq_stdName]
    apply filter_name_map
    intro n
    constructor
    · intro h
      unfold stdName at h
      split_ifs at h with h1 h2 h3
      · exact absurd h (by decide)
      · exact absurd hP h2.2
      · exact absurd hP h3.2
      · exact h
    · intro h
      rw [h]
      exact stdName_Price _

/-- Witness for C1: a record with `price: 1` and `Price: 2` keeps
`Price == 2` after standardization. -/
theorem standardize_columns_no_overwrite_witness :
    (standardize_columns [("price", [Cell.num 1]), ("Price", [Cell.num 2])]).filter
        (fun c => c.1 == "Price")
      = [("Price", [Cell.num 2])] := by
  have h := (standardize_columns_no_overwrite
      [("price", [Cell.num 1]), ("Price", [Cell.num 2])]).2.2.2.2
      (by decide) (by decide)
  rw [h]
  decide

/-- C9: on a frame with both a `price` and a `value` column and no `Price`
column, the rename map of `standardize_columns` sends both `price` and
`value` to `Price`, so the standardized frame carries (at least) two columns
labelled `Price`. -/
theorem standardize_columns_duplicate_price (df : DataFrame)
    (hp : "price" ∈ colNames df) (hv : "value" ∈ colNames df)
    (hP : "Price" ∉ colNames df) :
    ("price", "Price") ∈ renameMap (colNames df) ∧
    ("value", "Price") ∈ renameMap (colNames df) ∧
    2 ≤ (colNames (standardize_columns df)).count "Price" := by
  have hB : (if "price" ∈ colNames df ∧ "Price" ∉ colNames df then
      [(("price" : String), ("Price" : String))] else []) = [("price", "Price")] :=
    if_pos ⟨hp, hP⟩
  have hC : (if "value" ∈ colNames df ∧ "Price" ∉ colNames df then
      [(("value" : String), ("Price" : String))] else []) = [("value", "Price")] :=
    if_pos ⟨hv, hP⟩
  refine ⟨?_, ?_, ?_⟩
  · unfold renameMap
    rw [hB]
    simp
  · unfold renameMap
    rw [hC]
    simp
  · rw [colNames_standardize]
    have k1 : stdName (colNames df) "price" = "Price" := by
      unfold stdName
      rw [if_neg (fun h => absurd h.1 (by decide)), if_pos ⟨rfl, hP⟩]
    have k2 : stdName (colNames df) "value" = "Price" := by
      unfold stdName
      rw [if_neg (fun h => absurd h.1 (by decide)),
        if_neg (fun h => absurd h.1 (by decide)), if_pos ⟨rfl, hP⟩]
    have hc := count_add_le_count_map (stdName (colNames df)) "Price" "price"
      "value" (by decide) k1 k2 (colNames df)
    have c1 : 0 < (colNames df).count "price" := List.count_pos_iff.mpr hp
    have c2 : 0 < (colNames df).count "value" := List.count_pos_iff.mpr hv
    omega

/-- Witness for C9 at a concrete two-column frame. -/
theorem standardize_columns_duplicate_price_witness :
    2 ≤ (colNames (standardize_columns
        [("price", [Cell.num 1]), ("value", [Cell.num 2])])).count "Price" :=
  (standardize_columns_duplicate_price
    [("price", [Cell.num 1]), ("value", [Cell.num 2])]
    (by decide) (by decide) (by decide)).2.2

/-- C10: `standardize_columns` is idempotent, and it only changes column
labels: the cell data of every column (hence the number of rows) is exactly
that of the input frame. -/
theorem standardize_columns_idempotent (df : DataFrame) :
    standardize_columns (standardize_columns df) = standardize_columns df ∧
    (standardize_columns df).map Prod.snd = df.map Prod.snd := by
  constructor
  · rw [standardize_eq_stdName (standardize_columns df)]
    have he : ∀ c ∈ standardize_columns df,
        (stdName (colNames (standardize_columns df)) c.1, c.2) = c := by
      intro c hc
      have h1 : c.1 ∈ colNames (standardize_columns df) :=
        List.mem_map_of_mem Prod.fst hc
      rw [colNames_standardize] at h1
      rw [colNames_standardize, stdName_fixed _ _ h1]
    rw [List.map_congr_left he, List.map_id']
  · rw [standardize_eq_map]
    simp [List.map_map, Function.comp]

/-! ## Helper lemmas: column assignment and reindexing -/

theorem colNames_setCol (df : DataFrame) (n : String) (cs : List Cell) :
    colNames (setCol df n cs)
      = if n ∈ colNames df then colNames df else colNames df ++ [n] := by
  unfold setCol
  split_ifs with h
  · simp only [colNames, List.map_map]
    apply List.map_congr_left
    intro c _
    by_cases h2 : c.1 = n <;> simp [Function.comp, h2]
  · simp [colNames]

theorem getColCells_map_replace (n : String) (cs : List Cell) (df : DataFrame)
    (h : n ∈ colNames df) :
    getColCells (df.map (fun c => if c.1 = n then (n, cs) else c)) n = cs := by
  induction df with
  | nil => simp [colNames] at h
  | cons c t ih =>
    by_cases h2 : c.1 = n
    · simp [getColCells, h2]
    · rw [show colNames (c :: t) = c.1 :: colNames t from rfl] at h
      have h3 : n ∈ colNames t := by
        rcases List.mem_cons.mp h with h4 | h4
        · exact absurd h4.symm h2
        · exact h4
      simp [getColCells, h2, ih h3]

theorem getColCells_append_single (n : String) (cs : List Cell) (df : DataFrame)
    (h : n ∉ colNames df) :
    getColCells (df ++ [(n, cs)]) n = cs := by
  induction df with
  | nil => simp [getColCells]
  | cons c t ih =>
    rw [show colNames (c :: t) = c.1 :: colNames t from rfl] at h
    have h1 : ¬c.1 = n := fun hc => h (by rw [hc]; exact List.mem_cons_self _ _)
    have h3 : n ∉ colNames t := fun hm => h (List.mem_cons_of_mem _ hm)
    simp [getColCells, h1, ih h3]

theorem getColCells_setCol_self (df : DataFrame) (n : String) (cs : List Cell) :
    getColCells (setCol df n cs) n = cs := by
  unfold setCol
  split_ifs with h
  · exact getColCells_map_replace n cs df h
  · exact getColCells_append_single n cs df h

theorem getColCells_map_replace_other (n m : String) (cs : List Cell)
    (hmn : m ≠ n) (df : DataFrame) :
    getColCells (df.map (fun c => if c.1 = n then (n, cs) else c)) m
      = getColCells df m := by
  induction df with
  | nil => rfl
  | cons c t ih =>
    by_cases h2 : c.1 = n
    · have hnm : ¬n = m := fun h => hmn h.symm
      simp [getColCells, h2, hnm, ih]
    · simp [getColCells, h2, ih]

theorem getColCells_append_single_other (n m : String) (cs : List Cell)
    (hmn : m ≠ n) (df : DataFrame) :
    getColCells (df ++ [(n, cs)]) m = getColCells df m := by
  induction df with
  | nil =>
    have hnm : ¬n = m := fun h => hmn h.symm
    simp [getColCells, hnm]
  | cons c t ih =>
    by_cases h2 : c.1 = m <;> simp [getColCells, h2, ih]

theorem getColCells_setCol_other (df : DataFrame) (n m : String) (cs : List Cell)
    (hmn : m ≠ n) :
    getColCells (setCol df n cs) m = getColCells df m := by
  unfold setCol
  split_ifs with h
  · exact getColCells_map_replace_other n m cs hmn df
  · exact getColCells_append_single_other n m cs hmn df

theorem colNames_reindex (df : DataFrame) (cols : List String) :
    colNames (reindex df cols) = cols := by
  unfold colNames reindex
  rw [List.map_map]
  have h : List.map (Prod.fst ∘ fun n => (n, getColCells df n)) cols
      = List.map (fun n => n) cols := List.map_congr_left (fun a _ => rfl)
  rw [h, List.map_id']

theorem getColCells_reindex (df : DataFrame) (cols : List String) (n : String)
    (hn : n ∈ cols) :
    getColCells (reindex df cols) n = getColCells df n := by
  induction cols with
  | nil => simp at hn
  | cons k t ih =>
    by_cases h2 : k = n
    · simp [reindex, getColCells, h2]
    · have h3 : n ∈ t := by
        rcases List.mem_cons.mp hn with h4 | h4
        · exact absurd h4.symm h2
        · exact h4
      simpa [reindex, getColCells, h2] using ih h3

theorem filter_colNames_setCol (df : DataFrame) (n : String) (cs : List Cell)
    (hn : n ∈ preferredCols) :
    (colNames (setCol df n cs)).filter (fun c => c ∉ preferredCols)
      = (colNames df).filter (fun c => c ∉ preferredCols) := by
  rw [colNames_setCol]
  split_ifs with h
  · rfl
  · rw [List.filter_append]
    simp [hn]

/-! ## Helper lemmas: the transform pipeline -/

theorem transform_ok_inv (parseTs : Cell → Option (Cell × Cell)) (vat_rate : ℚ)
    (df0 out : DataFrame) (hok : transform parseTs vat_rate df0 = .ok out) :
    out = transformSuccess parseTs vat_rate (standardize_columns df0) := by
  simp only [transform] at hok
  split_ifs at hok
  all_goals
    first
      | (injection hok with h; exact h.symm)
      | (injection hok)

theorem getColCells_transformSuccess_Price (parseTs : Cell → Option (Cell × Cell))
    (vat_rate : ℚ) (df : DataFrame) :
    getColCells (transformSuccess parseTs vat_rate df) "Price"
      = (getColCells (deriveDateTime parseTs df) "Price").map toNumeric := by
  unfold transformSuccess
  rw [getColCells_reindex _ _ _ (by simp [preferredCols]),
    getColCells_setCol_other _ _ _ _ (by decide), getColCells_setCol_self]

theorem getColCells_transformSuccess_PwV (parseTs : Cell → Option (Cell × Cell))
    (vat_rate : ℚ) (df : DataFrame) :
    getColCells (transformSuccess parseTs vat_rate df) "Price_with_VAT"
      = ((getColCells (deriveDateTime parseTs df) "Price").map toNumeric).map
          (cellScale (1 + vat_rate)) := by
  unfold transformSuccess
  rw [getColCells_reindex _ _ _ (by simp [preferredCols]), getColCells_setCol_self]

theorem colNames_transformSuccess (parseTs : Cell → Option (Cell × Cell))
    (vat_rate : ℚ) (df : DataFrame) :
    colNames (transformSuccess parseTs vat_rate df)
      = preferredCols ++ (colNames df).filter (fun c => c ∉ preferredCols) := by
  unfold transformSuccess deriveDateTime
  rw [colNames_reindex]
  rw [filter_colNames_setCol _ _ _ (by decide), filter_colNames_setCol _ _ _ (by decide),
    filter_colNames_setCol _ _ _ (by decide), filter_colNames_setCol _ _ _ (by decide)]

/-- C2: on every successful transform, the `Price_with_VAT` column is,
row for row, exactly the `Price` column scaled by `1 + vat_rate` (the
embedding computes in exact rational arithmetic; the concrete instance
`Price = 100`, `vat_rate = 0.21` → `121` is also exact in IEEE doubles).
The `Nodup` hypothesis pins the embedding to the frames pandas itself
accepts: a frame with duplicate labels would raise in `pd.to_numeric`. -/
theorem transform_price_with_vat (parseTs : Cell → Option (Cell × Cell))
    (vat_rate : ℚ) (df0 out : DataFrame)
    (hnd : (colNames (standardize_columns df0)).Nodup)
    (hok : transform parseTs vat_rate df0 = .ok out) :
    getColCells out "Price_with_VAT"
      = (getColCells out "Price").map (cellScale (1 + vat_rate)) := by
  rw [transform_ok_inv parseTs vat_rate df0 out hok]
  rw [getColCells_transformSuccess_PwV, getColCells_transformSuccess_Price]

/-- Witness for C2: one row with `Price = 100` under `vat_rate = 21/100`
yields `Price_with_VAT` exactly `121`. -/
theorem transform_price_with_vat_witness :
    transform (fun c => some (c, c)) (21/100)
        [("ReadingDate", [Cell.str "d"]), ("Price", [Cell.num 100])]
      = .ok (transformSuccess (fun c => some (c, c)) (21/100)
          (standardize_columns
            [("ReadingDate", [Cell.str "d"]), ("Price", [Cell.num 100])])) ∧
    getColCells (transformSuccess (fun c => some (c, c)) (21/100)
        (standardize_columns
          [("ReadingDate", [Cell.str "d"]), ("Price", [Cell.num 100])]))
        "Price_with_VAT"
      = [Cell.num 121] := by
  refine ⟨rfl, ?_⟩
  have h := transform_price_with_vat (fun c => some (c, c)) (21/100)
      [("ReadingDate", [Cell.str "d"]), ("Price", [Cell.num 100])]
      (transformSuccess (fun c => some (c, c)) (21/100)
        (standardize_columns
          [("ReadingDate", [Cell.str "d"]), ("Price", [Cell.num 100])]))
      (by decide) rfl
  rw [h]
  rw [show getColCells (transformSuccess (fun c => some (c, c)) (21/100)
      (standardize_columns
        [("ReadingDate", [Cell.str "d"]), ("Price", [Cell.num 100])]))
      "Price" = [Cell.num 100] from rfl]
  show [Cell.num (100 * (1 + 21/100))] = [Cell.num 121]
  norm_num

/-- C7: every successful transform orders the columns as the five canonical
columns `ReadingDate, Date, Time, Price, Price_with_VAT` first, followed by
the remaining (standardized) source columns in their original relative
order. -/
theorem transform_column_order (parseTs : Cell → Option (Cell × Cell))
    (vat_rate : ℚ) (df0 out : DataFrame)
    (hnd : (colNames (standardize_columns df0)).Nodup)
    (hok : transform parseTs vat_rate df0 = .ok out) :
    colNames out
      = preferredCols
        ++ (colNames (standardize_columns df0)).filter
            (fun c => c ∉ preferredCols) := by
  rw [transform_ok_inv parseTs vat_rate df0 out hok, colNames_transformSuccess]

/-- Witness for C7: a frame with a passthrough `id` column ends with the
five canonical columns first and `id` last. -/
theorem transform_column_order_witness :
    transform (fun c => some (c, c)) (21/100)
        [("id", [Cell.num 7]), ("readingDate", [Cell.str "t"]),
          ("price", [Cell.num 1])]
      = .ok (transformSuccess (fun c => some (c, c)) (21/100)
          (standardize_columns
            [("id", [Cell.num 7]), ("readingDate", [Cell.str "t"]),
              ("price", [Cell.num 1])])) ∧
    colNames (transformSuccess (fun c => some (c, c)) (21/100)
        (standardize_columns
          [("id", [Cell.num 7]), ("readingDate", [Cell.str "t"]),
            ("price", [Cell.num 1])]))
      = ["ReadingDate", "Date", "Time", "Price", "Price_with_VAT", "id"] := by
  refine ⟨rfl, ?_⟩
  have h := transform_column_order (fun c => some (c, c)) (21/100)
      [("id", [Cell.num 7]), ("readingDate", [Cell.str "t"]),
        ("price", [Cell.num 1])]
      (transformSuccess (fun c => some (c, c)) (21/100)
        (standardize_columns
          [("id", [Cell.num 7]), ("readingDate", [Cell.str "t"]),
            ("price", [Cell.num 1])]))
      (by decide) rfl
  rw [h]
  decide

/-- C6: when some `ReadingDate` value fails to parse, the transform fails
(no rows are dropped) with the parse error naming the first at most 5
offending raw values. -/
theorem transform_parse_failure (parseTs : Cell → Option (Cell × Cell))
    (vat_rate : ℚ) (df0 : DataFrame)
    (hRD : "ReadingDate" ∈ colNames (standardize_columns df0))
    (hP : "Price" ∈ colNames (standardize_columns df0))
    (hbad : ∃ c ∈ getColCells (standardize_columns df0) "ReadingDate",
      parseTs c = none) :
    transform parseTs vat_rate df0
      = .error (parseErrMsg
          (((getColCells (standardize_columns df0) "ReadingDate").filter
            (fun c => (parseTs c).isNone)).take 5)) ∧
    (((getColCells (standardize_columns df0) "ReadingDate").filter
        (fun c => (parseTs c).isNone)).take 5).length ≤ 5 := by
  constructor
  · obtain ⟨c, hc, hn⟩ := hbad
    have hany : ((getColCells (standardize_columns df0) "ReadingDate").map
        parseTs).any Option.isNone = true :=
      List.any_eq_true.mpr
        ⟨parseTs c, List.mem_map_of_mem parseTs hc, by rw [hn]; rfl⟩
    simp only [transform]
    rw [if_neg (fun h => h hRD), if_neg (fun h => h hP), if_pos hany]
  · exact List.length_take_le _ _

/-- Witness for C6 at a concrete unparseable `ReadingDate`. -/
theorem transform_parse_failure_witness :
    transform (fun _ => none) (21/100)
        [("readingDate", [Cell.str "not-a-date"]), ("price", [Cell.num 1])]
      = .error (parseErrMsg [Cell.str "not-a-date"]) := by
  have h := (transform_parse_failure (fun _ => none) (21/100)
      [("readingDate", [Cell.str "not-a-date"]), ("price", [Cell.num 1])]
      (by decide) (by decide)
      ⟨Cell.str "not-a-date", by decide, rfl⟩).1
  rw [h]
  rfl

/-! ## Helper lemmas: the validator -/

theorem checkPriceCol_unfold (df : DataFrame) (col : String) :
    checkPriceCol df col =
      if (getColCells df col).countP (fun c => c.isNull) ≠ 0 then
        .error (nullsMsg col ((getColCells df col).countP (fun c => c.isNull)))
      else if ((getColCells df col).map toNumeric).any Cell.isNull then
        .error (nonNumericMsg col
          (((getColCells df col).filter (fun c => (toNumeric c).isNull)).take 5))
      else .ok () := rfl

theorem validate_unfold (df : DataFrame) :
    validate df =
      if requiredCols.filter (fun c => c ∉ colNames df) ≠ [] then
        Except.error (missingColsMsg
          (requiredCols.filter (fun c => c ∉ colNames df)) (colNames df))
      else if nRows df = 0 then
        Except.error "Validation FAIL: Parquet contains 0 rows."
      else
        match checkPriceCol df "Price" with
        | .error e => .error e
        | .ok _ => checkPriceCol df "Price_with_VAT" := rfl

theorem checkPriceCol_ok_iff (df : DataFrame) (col : String) :
    checkPriceCol df col = .ok () ↔
      ∀ x ∈ getColCells df col,
        x.isNull = false ∧ (toNumeric x).isNull = false := by
  rw [checkPriceCol_unfold]
  split_ifs with h1 h2
  · constructor
    · intro h
      exact absurd h (by simp)
    · intro hr
      exact absurd (List.countP_eq_zero.mpr (fun x hx => by simp [(hr x hx).1])) h1
  · constructor
    · intro h
      exact absurd h (by simp)
    · intro hr
      exfalso
      obtain ⟨y, hy, hpy⟩ := List.any_eq_true.mp h2
      obtain ⟨x, hx, rfl⟩ := List.mem_map.mp hy
      rw [(hr x hx).2] at hpy
      exact absurd hpy (by simp)
  · have h1' : (getColCells df col).countP (fun c => c.isNull) = 0 := not_not.mp h1
    have h2' : ∀ y ∈ (getColCells df col).map toNumeric, y.isNull = false := by
      intro y hy
      by_contra hcon
      exact h2 (List.any_eq_true.mpr ⟨y, hy, by simpa using hcon⟩)
    constructor
    · intro _
      intro x hx
      refine ⟨?_, ?_⟩
      · have hz := List.countP_eq_zero.mp h1' x hx
        simpa using hz
      · exact h2' (toNumeric x) (List.mem_map_of_mem toNumeric hx)
    · intro _
      rfl

/-- C5: the validator succeeds exactly when the table is non-empty, has all
five canonical columns, and `Price`/`Price_with_VAT` are null-free and fully
numeric; a missing-column failure names exactly the missing columns, and a
table with nulls in `Price` fails naming the count of nulls. -/
theorem validate_contract (df : DataFrame) (hnd : (colNames df).Nodup) :
    (validate df = .ok () ↔
      (nRows df ≠ 0 ∧ (∀ c ∈ requiredCols, c ∈ colNames df) ∧
        (∀ x ∈ getColCells df "Price",
          x.isNull = false ∧ (toNumeric x).isNull = false) ∧
        (∀ x ∈ getColCells df "Price_with_VAT",
          x.isNull = false ∧ (toNumeric x).isNull = false))) ∧
    (requiredCols.filter (fun c => c ∉ colNames df) ≠ [] →
      validate df = .error (missingColsMsg
        (requiredCols.filter (fun c => c ∉ colNames df)) (colNames df))) ∧
    ((∀ c ∈ requiredCols, c ∈ colNames df) → nRows df ≠ 0 →
      (getColCells df "Price").countP (fun c => c.isNull) ≠ 0 →
      validate df = .error (nullsMsg "Price"
        ((getColCells df "Price").countP (fun c => c.isNull)))) := by
  have hmiss : (requiredCols.filter (fun c => c ∉ colNames df) = [])
      ↔ (∀ c ∈ requiredCols, c ∈ colNames df) := by
    rw [List.filter_eq_nil_iff]
    simp
  refine ⟨?_, ?_, ?_⟩
  · by_cases h1 : requiredCols.filter (fun c => c ∉ colNames df) = []
    · by_cases h2 : nRows df = 0
      · have hv : validate df
            = .error "Validation FAIL: Parquet contains 0 rows." := by
          rw [validate_unfold, if_neg (fun hne => hne h1), if_pos h2]
        rw [hv]
        constructor
        · intro h
          exact absurd h (by simp)
        · rintro ⟨hrows, _⟩
          exact absurd h2 hrows
      · have hv : validate df
            = match checkPriceCol df "Price" with
              | .error e => .error e
              | .ok _ => checkPriceCol df "Price_with_VAT" := by
          rw [validate_unfold, if_neg (fun hne => hne h1), if_neg h2]
        rw [hv]
        have hall := hmiss.mp h1
        cases hcp : checkPriceCol df "Price" with
        | error e =>
          constructor
          · intro h
            exact absurd h (by simp)
          · rintro ⟨_, _, hpr, _⟩
            have hok := (checkPriceCol_ok_iff df "Price").mpr hpr
            rw [hcp] at hok
            exact absurd hok (by simp)
        | ok u =>
          cases u
          constructor
          · intro h
            exact ⟨h2, hall, (checkPriceCol_ok_iff df "Price").mp hcp,
              (checkPriceCol_ok_iff df "Price_with_VAT").mp h⟩
          · rintro ⟨_, _, _, hpwv⟩
            exact (checkPriceCol_ok_iff df "Price_with_VAT").mpr hpwv
    · have hv : validate df = .error (missingColsMsg
          (requiredCols.filter (fun c => c ∉ colNames df)) (colNames df)) := by
        rw [validate_unfold, if_pos h1]
      rw [hv]
      constructor
      · intro h
        exact absurd h (by simp)
      · rintro ⟨_, hall, _⟩
        exact absurd (hmiss.mpr hall) h1
  · intro hne
    rw [validate_unfold, if_pos hne]
  · intro hall hrows hcnt
    rw [validate_unfold, if_neg (fun h => h (hmiss.mpr hall)), if_neg hrows]
    have hcp : checkPriceCol df "Price"
        = .error (nullsMsg "Price"
            ((getColCells df "Price").countP (fun c => c.isNull))) := by
      rw [checkPriceCol_unfold, if_pos hcnt]
    rw [hcp]

/-- Witness for C5: a table with a null `Price` fails with the null count. -/
theorem validate_contract_witness :
    validate [("ReadingDate", [Cell.str "x"]), ("Date", [Cell.str "d"]),
        ("Time", [Cell.str "t"]), ("Price", [Cell.null]),
        ("Price_with_VAT", [Cell.num 121])]
      = .error (nullsMsg "Price" 1) := by
  have h := (validate_contract [("ReadingDate", [Cell.str "x"]),
      ("Date", [Cell.str "d"]), ("Time", [Cell.str "t"]),
      ("Price", [Cell.null]), ("Price_with_VAT", [Cell.num 121])]
      (by decide)).2.2 (by decide) (by decide) (by decide)
  rw [show (getColCells [("ReadingDate", [Cell.str "x"]),
      ("Date", [Cell.str "d"]), ("Time", [Cell.str "t"]),
      ("Price", [Cell.null]), ("Price_with_VAT", [Cell.num 121])]
      "Price").countP (fun c => c.isNull) = 1 from rfl] at h
  exact h

end EnergyzeroETL
